import Mathlib

/-!
Shallow embedding of `src/db/models/ActivityLogs.js` (erxes-api): the
activity-log record schema and the static helper methods of the
`ActivityLog` class, together with proofs of the specified properties.

Modelling conventions:
* The mongoose collection is a `Store`: a list of documents plus a
  counter standing for the server-assigned primary key (`_id`).
  `createdAt` (a server-assigned timestamp) is not modelled; no claim
  mentions it.
* `this.findOne(filter)` is `List.find?` with the filter compiled to a
  boolean predicate; `this.create(doc)` appends the document and hands
  out the next `_id`.
* JavaScript `null`/`undefined` arguments and absent fields are `Option`;
  a missing `companyIds` array behaves exactly like `[]` (the source
  guards with `customer.companyIds && customer.companyIds.length > 0`
  before looping, and looping over an empty list is a no-op).
* `throw new Error(...)` is `Except.error` with the message; an
  errored call returns no store, so the caller's store is untouched.
* The enumeration constants (`ACTIVITY_TYPES`, `ACTIVITY_ACTIONS`,
  `ACTIVITY_PERFORMER_TYPES`, `COC_CONTENT_TYPES` from
  `data/constants`) are fixed string enumerations; they are embedded as
  inductive types.
-/

namespace ActivityLogs

/-- ACTIVITY_PERFORMER_TYPES: SYSTEM, USER, CUSTOMER. -/
inductive PerformerType
  | System
  | User
  | Customer
deriving DecidableEq, Repr

/-- ACTIVITY_TYPES: the fixed enumeration of activity subjects. -/
inductive ActivityType
  | Customer
  | Company
  | InternalNote
  | ConversationMessage
  | Segment
deriving DecidableEq, Repr

/-- ACTIVITY_ACTIONS: the fixed enumeration of actions. -/
inductive ActivityAction
  | Create
  | Update
deriving DecidableEq, Repr

/-- COC_CONTENT_TYPES: a coc ("customer or company") is one of two kinds. -/
inductive CocType
  | Customer
  | Company
deriving DecidableEq, Repr

/-- The `ActionPerformer` sub-schema: `type` (required, defaults to
SYSTEM at the call sites that omit it) and an optional `id`. -/
structure ActionPerformer where
  type : PerformerType
  id : Option String
deriving DecidableEq, Repr

/-- The `Activity` sub-schema: `type` and `action` required, free-form
`content` (every helper in the source stores a string there), optional
`id` of the acted-upon entity. -/
structure Activity where
  type : ActivityType
  action : ActivityAction
  content : String
  id : Option String
deriving DecidableEq, Repr

/-- The `COC` sub-schema. `id` and `type` are marked required in the
schema; requiredness is store-side validation, so the field is kept
optional in the document shape and every helper below supplies it. -/
structure COC where
  id : Option String
  type : CocType
deriving DecidableEq, Repr

/-- A persisted activity-log document (`ActivityLogSchema`), with the
server-assigned primary key. -/
structure ActivityLogDoc where
  _id : Nat
  activity : Activity
  performedBy : ActionPerformer
  coc : COC
deriving DecidableEq, Repr

/-- The collection state: documents in insertion order, plus the next
server-assigned primary key. -/
structure Store where
  nextId : Nat
  docs : List ActivityLogDoc
deriving DecidableEq, Repr

/-- An empty collection. -/
def emptyStore : Store := { nextId := 0, docs := [] }

/-- `this.create(doc)`: persist one document, assigning the next `_id`,
and return the created document. -/
def Store.insert (s : Store) (activity : Activity) (performedBy : ActionPerformer)
    (coc : COC) : ActivityLogDoc × Store :=
  let doc : ActivityLogDoc :=
    { _id := s.nextId, activity := activity, performedBy := performedBy, coc := coc }
  (doc, { nextId := s.nextId + 1, docs := s.docs ++ [doc] })

/-- `createDoc({performer, ...doc})`: when `performer` is null or
omitted, `performedBy` defaults to `{type: SYSTEM}`. -/
def createDoc (s : Store) (performer : Option ActionPerformer) (activity : Activity)
    (coc : COC) : ActivityLogDoc × Store :=
  let performedBy : ActionPerformer :=
    match performer with
    | none => { type := PerformerType.System, id := none }
    | some p => p
  s.insert activity performedBy coc

/-- An internal-note document, as used by `createInternalNoteLog`. -/
structure InternalNote where
  _id : String
  content : String
  contentTypeId : String
  contentType : CocType
deriving DecidableEq, Repr

/-- A user document; `_id` is optional because
`createCustomerRegistrationLog` tests it for presence. -/
structure User where
  _id : Option String
deriving DecidableEq, Repr

/-- A customer document, as used by the conversation-message and
registration helpers. -/
structure Customer where
  _id : Option String
  name : String
  companyIds : List String
deriving DecidableEq, Repr

/-- A company document, as used by `createCompanyRegistrationLog`. -/
structure Company where
  _id : String
  name : String
deriving DecidableEq, Repr

/-- A conversation message, as used by `createConversationMessageLog`. -/
structure Message where
  _id : String
  content : String
deriving DecidableEq, Repr

/-- A segment document, as used by `createSegmentLog`. -/
structure Segment where
  _id : String
  name : String
  contentType : CocType
deriving DecidableEq, Repr

/-- The customer-or-company target passed to `createSegmentLog`. -/
structure CocTarget where
  _id : String
deriving DecidableEq, Repr

/-- `createInternalNoteLog(internalNote, user)`: one unconditional
insert. -/
def createInternalNoteLog (s : Store) (internalNote : InternalNote) (user : User) :
    ActivityLogDoc × Store :=
  createDoc s
    (some { type := PerformerType.User, id := user._id })
    { type := ActivityType.InternalNote
      action := ActivityAction.Create
      content := internalNote.content
      id := some internalNote._id }
    { id := some internalNote.contentTypeId, type := internalNote.contentType }

/-- The filter of `cocFindOne(messageId, cocId, cocType)`, compiled to a
predicate on documents. -/
def cocMatches (messageId cocId : String) (cocType : CocType) (d : ActivityLogDoc) : Bool :=
  decide (d.activity.type = ActivityType.ConversationMessage) &&
  decide (d.activity.action = ActivityAction.Create) &&
  decide (d.activity.id = some messageId) &&
  decide (d.coc.type = cocType) &&
  decide (d.performedBy.type = PerformerType.Customer) &&
  decide (d.coc.id = some cocId)

/-- `cocFindOne(messageId, cocId, cocType)`: `findOne` under the
conversation-message duplicate-check filter. -/
def cocFindOne (s : Store) (messageId cocId : String) (cocType : CocType) :
    Option ActivityLogDoc :=
  s.docs.find? (cocMatches messageId cocId cocType)

/-- `cocCreate(messageId, content, cocId, cocType)`: insert a
conversation-message log performed by `{type: CUSTOMER}` (no performer
id). -/
def cocCreate (s : Store) (messageId content cocId : String) (cocType : CocType) :
    ActivityLogDoc × Store :=
  createDoc s
    (some { type := PerformerType.Customer, id := none })
    { type := ActivityType.ConversationMessage
      action := ActivityAction.Create
      content := content
      id := some messageId }
    { id := some cocId, type := cocType }

/-- The per-company `for` loop of `createConversationMessageLog`: for
each company id in order, check `cocFindOne` and insert via `cocCreate`
when absent. -/
def conversationCompanyLoop (messageId content : String) (companyIds : List String)
    (s : Store) : Store :=
  match companyIds with
  | [] => s
  | companyId :: rest =>
    let s' : Store :=
      match cocFindOne s messageId companyId CocType.Company with
      | some _ => s
      | none => (cocCreate s messageId content companyId CocType.Company).2
    conversationCompanyLoop messageId content rest s'

/-- `createConversationMessageLog(message, customer)`: throws when
`customer` is null or lacks `_id`; otherwise runs the per-company loop,
then the customer-level check/insert. The function returns the created
customer-level document, or nothing when the customer-level duplicate
check found an existing record. -/
def createConversationMessageLog (s : Store) (message : Message)
    (customer : Option Customer) : Except String (Option ActivityLogDoc × Store) :=
  match customer with
  | none =>
    Except.error "customer must be supplied when adding activity log for conversations"
  | some c =>
    match c._id with
    | none =>
      Except.error "customer must be supplied when adding activity log for conversations"
    | some customerId =>
      let s1 := conversationCompanyLoop message._id message.content c.companyIds s
      match cocFindOne s1 message._id customerId CocType.Customer with
      | some _ => Except.ok (none, s1)
      | none =>
        let created := cocCreate s1 message._id message.content customerId CocType.Customer
        Except.ok (some created.1, created.2)

/-- The duplicate-check filter of `createSegmentLog`, compiled to a
predicate on documents. -/
def segmentMatches (segmentId : String) (cocType : CocType) (cocId : String)
    (d : ActivityLogDoc) : Bool :=
  decide (d.activity.type = ActivityType.Segment) &&
  decide (d.activity.action = ActivityAction.Create) &&
  decide (d.activity.id = some segmentId) &&
  decide (d.coc.type = cocType) &&
  decide (d.coc.id = some cocId)

/-- `createSegmentLog(segment, customer)`: throws when the target is
absent; returns an existing matching record unchanged, otherwise inserts
one new record with no explicit performer. -/
def createSegmentLog (s : Store) (segment : Segment) (customer : Option CocTarget) :
    Except String (ActivityLogDoc × Store) :=
  match customer with
  | none => Except.error "customer must be supplied"
  | some c =>
    match s.docs.find? (segmentMatches segment._id segment.contentType c._id) with
    | some foundSegment => Except.ok (foundSegment, s)
    | none =>
      let created :=
        createDoc s none
          { type := ActivityType.Segment
            action := ActivityAction.Create
            content := segment.name
            id := some segment._id }
          { id := some c._id, type := segment.contentType }
      Except.ok (created.1, created.2)

/-- The performer computed by the registration helpers:
`(user && user._id && {type: USER, id: user._id}) || null`. -/
def registrationPerformer (user : Option User) : Option ActionPerformer :=
  match user with
  | none => none
  | some u =>
    match u._id with
    | none => none
    | some uid => some { type := PerformerType.User, id := some uid }

/-- `createCustomerRegistrationLog(customer, user)`: one unconditional
insert; the performer defaults to System when `user` or `user._id` is
absent. -/
def createCustomerRegistrationLog (s : Store) (customer : Customer)
    (user : Option User) : ActivityLogDoc × Store :=
  createDoc s (registrationPerformer user)
    { type := ActivityType.Customer
      action := ActivityAction.Create
      content := customer.name
      id := customer._id }
    { id := customer._id, type := CocType.Customer }

/-- `createCompanyRegistrationLog(company, user)`: symmetric to the
customer registration log. -/
def createCompanyRegistrationLog (s : Store) (company : Company)
    (user : Option User) : ActivityLogDoc × Store :=
  createDoc s (registrationPerformer user)
    { type := ActivityType.Company
      action := ActivityAction.Create
      content := company.name
      id := some company._id }
    { id := some company._id, type := CocType.Company }

/-- Number of documents in the store matching a predicate. -/
def countMatching (s : Store) (p : ActivityLogDoc → Bool) : Nat :=
  (s.docs.filter p).length

/-! Sample inputs used by witness theorems. -/

/-- A sample activity payload. -/
def sampleActivity : Activity :=
  { type := ActivityType.Customer, action := ActivityAction.Create
    content := "Acme", id := some "c1" }

/-- A sample coc payload. -/
def sampleCOC : COC := { id := some "c1", type := CocType.Customer }

/-- A sample customer with no associated companies. -/
def sampleCustomer : Customer := { _id := some "c1", name := "Acme", companyIds := [] }

/-- A sample conversation message. -/
def sampleMessage : Message := { _id := "m1", content := "hi" }

/-- A sample segment targeting customers. -/
def sampleSegment : Segment := { _id := "s1", name := "seg", contentType := CocType.Customer }

/-- A sample segment target. -/
def sampleTarget : CocTarget := { _id := "c1" }

/-! General lemmas about `countMatching`, `cocFindOne` and the
conversation-message loop. -/

theorem countMatching_eq_zero (s : Store) (p : ActivityLogDoc → Bool) :
    countMatching s p = 0 ↔ ∀ d ∈ s.docs, ¬ p d := by
  simp [countMatching, List.length_eq_zero, List.filter_eq_nil_iff]

theorem countMatching_pos (s : Store) (p : ActivityLogDoc → Bool) :
    0 < countMatching s p ↔ ∃ d ∈ s.docs, p d := by
  simp [countMatching, List.length_pos_iff_exists_mem, List.mem_filter]

theorem cocFindOne_eq_none (s : Store) (mid cid : String) (t : CocType) :
    cocFindOne s mid cid t = none ↔
      countMatching s (cocMatches mid cid t) = 0 := by
  simp [cocFindOne, List.find?_eq_none, countMatching_eq_zero]

theorem cocFindOne_isSome (s : Store) (mid cid : String) (t : CocType) :
    (cocFindOne s mid cid t).isSome ↔
      0 < countMatching s (cocMatches mid cid t) := by
  simp [cocFindOne, List.find?_isSome, countMatching_pos]

theorem countMatching_insert (s : Store) (a : Activity) (pb : ActionPerformer)
    (c : COC) (p : ActivityLogDoc → Bool) :
    countMatching (s.insert a pb c).2 p =
      countMatching s p + (if p (s.insert a pb c).1 then 1 else 0) := by
  simp only [Store.insert, countMatching, List.filter_append, List.length_append,
    List.filter_cons, List.filter_nil]
  rcases Bool.eq_false_or_eq_true
      (p { _id := s.nextId, activity := a, performedBy := pb, coc := c }) with h | h <;>
    simp [h]

theorem countMatching_cocCreate (s : Store) (mid content cid : String) (t : CocType)
    (p : ActivityLogDoc → Bool) :
    countMatching (cocCreate s mid content cid t).2 p =
      countMatching s p + (if p (cocCreate s mid content cid t).1 then 1 else 0) := by
  simp only [cocCreate, createDoc]
  exact countMatching_insert ..

theorem cocMatches_created_self (s : Store) (mid content cid : String) (t : CocType) :
    cocMatches mid cid t (cocCreate s mid content cid t).1 = true := by
  simp [cocCreate, createDoc, Store.insert, cocMatches]

theorem cocMatches_created_ne_id (s : Store) (mid content cid cid' : String)
    (t t' : CocType) (h : cid' ≠ cid) :
    cocMatches mid cid t (cocCreate s mid content cid' t').1 = false := by
  simp [cocCreate, createDoc, Store.insert, cocMatches, h]

theorem cocMatches_created_ne_type (s : Store) (mid content cid : String)
    (mid2 cid2 : String) (t t2 : CocType) (h : t ≠ t2) :
    cocMatches mid2 cid2 t2 (cocCreate s mid content cid t).1 = false := by
  simp [cocCreate, createDoc, Store.insert, cocMatches, h]

theorem loop_count_company_pos (mid content cid : String) (ids : List String) :
    ∀ s : Store,
      0 < countMatching s (cocMatches mid cid CocType.Company) →
      countMatching (conversationCompanyLoop mid content ids s)
          (cocMatches mid cid CocType.Company) =
        countMatching s (cocMatches mid cid CocType.Company) := by
  induction ids with
  | nil => intro s _; rfl
  | cons companyId rest ih =>
    intro s h
    cases hf : cocFindOne s mid companyId CocType.Company with
    | some d =>
      simp only [conversationCompanyLoop, hf]
      exact ih s h
    | none =>
      have hne : companyId ≠ cid := by
        intro he
        subst he
        rw [cocFindOne_eq_none] at hf
        omega
      have hkey :
          cocMatches mid cid CocType.Company
            (cocCreate s mid content companyId CocType.Company).1 = false :=
        cocMatches_created_ne_id s mid content cid companyId
          CocType.Company CocType.Company hne
      have hc :
          countMatching (cocCreate s mid content companyId CocType.Company).2
              (cocMatches mid cid CocType.Company) =
            countMatching s (cocMatches mid cid CocType.Company) := by
        rw [countMatching_cocCreate, hkey]
        simp
      have h' :
          0 < countMatching (cocCreate s mid content companyId CocType.Company).2
              (cocMatches mid cid CocType.Company) := by
        rw [hc]; exact h
      simp only [conversationCompanyLoop, hf]
      rw [ih _ h', hc]

theorem loop_count_company_zero_mem (mid content cid : String) (ids : List String) :
    ∀ s : Store, cid ∈ ids →
      countMatching s (cocMatches mid cid CocType.Company) = 0 →
      countMatching (conversationCompanyLoop mid content ids s)
          (cocMatches mid cid CocType.Company) = 1 := by
  induction ids with
  | nil => intro s hmem _; cases hmem
  | cons companyId rest ih =>
    intro s hmem hzero
    cases hf : cocFindOne s mid companyId CocType.Company with
    | some d =>
      have hne : companyId ≠ cid := by
        intro he
        subst he
        have hp : (cocFindOne s mid companyId CocType.Company).isSome := by
          rw [hf]; rfl
        rw [cocFindOne_isSome] at hp
        omega
      have hmem' : cid ∈ rest := by
        rcases List.mem_cons.1 hmem with he | hr
        · exact absurd he.symm hne
        · exact hr
      simp only [conversationCompanyLoop, hf]
      exact ih s hmem' hzero
    | none =>
      by_cases he : companyId = cid
      · subst he
        have hkey :
            cocMatches mid companyId CocType.Company
              (cocCreate s mid content companyId CocType.Company).1 = true :=
          cocMatches_created_self s mid content companyId CocType.Company
        have hc :
            countMatching (cocCreate s mid content companyId CocType.Company).2
                (cocMatches mid companyId CocType.Company) = 1 := by
          rw [countMatching_cocCreate, hkey, hzero]
          rfl
        simp only [conversationCompanyLoop, hf]
        rw [loop_count_company_pos mid content companyId rest _ (by rw [hc]; exact Nat.one_pos),
          hc]
      · have hkey :
            cocMatches mid cid CocType.Company
              (cocCreate s mid content companyId CocType.Company).1 = false :=
          cocMatches_created_ne_id s mid content cid companyId
            CocType.Company CocType.Company he
        have hc :
            countMatching (cocCreate s mid content companyId CocType.Company).2
                (cocMatches mid cid CocType.Company) = 0 := by
          rw [countMatching_cocCreate, hkey, hzero]
          rfl
        have hmem' : cid ∈ rest := by
          rcases List.mem_cons.1 hmem with h1 | hr
          · exact absurd h1.symm he
          · exact hr
        simp only [conversationCompanyLoop, hf]
        exact ih _ hmem' hc

theorem loop_count_customer (mid content mid2 cid2 : String) (ids : List String) :
    ∀ s : Store,
      countMatching (conversationCompanyLoop mid content ids s)
          (cocMatches mid2 cid2 CocType.Customer) =
        countMatching s (cocMatches mid2 cid2 CocType.Customer) := by
  induction ids with
  | nil => intro s; rfl
  | cons companyId rest ih =>
    intro s
    cases hf : cocFindOne s mid companyId CocType.Company with
    | some d =>
      simp only [conversationCompanyLoop, hf]
      exact ih s
    | none =>
      have hkey :
          cocMatches mid2 cid2 CocType.Customer
            (cocCreate s mid content companyId CocType.Company).1 = false :=
        cocMatches_created_ne_type s mid content companyId mid2 cid2
          CocType.Company CocType.Customer (by simp)
      have hc :
          countMatching (cocCreate s mid content companyId CocType.Company).2
              (cocMatches mid2 cid2 CocType.Customer) =
            countMatching s (cocMatches mid2 cid2 CocType.Customer) := by
        rw [countMatching_cocCreate, hkey]
        simp
      simp only [conversationCompanyLoop, hf]
      rw [ih _, hc]

theorem loop_count_company_pos_of_mem (mid content cid : String) (ids : List String)
    (s : Store) (hmem : cid ∈ ids) :
    0 < countMatching (conversationCompanyLoop mid content ids s)
        (cocMatches mid cid CocType.Company) := by
  rcases Nat.eq_zero_or_pos (countMatching s (cocMatches mid cid CocType.Company)) with
    h0 | hpos
  · rw [loop_count_company_zero_mem mid content cid ids s hmem h0]
    exact Nat.one_pos
  · rw [loop_count_company_pos mid content cid ids s hpos]
    exact hpos

theorem loop_eq_self_of_pos (mid content : String) (ids : List String) :
    ∀ s : Store,
      (∀ cid ∈ ids, 0 < countMatching s (cocMatches mid cid CocType.Company)) →
      conversationCompanyLoop mid content ids s = s := by
  induction ids with
  | nil => intro s _; rfl
  | cons companyId rest ih =>
    intro s h
    have h0 : 0 < countMatching s (cocMatches mid companyId CocType.Company) :=
      h companyId (List.mem_cons_self companyId rest)
    have hsome : (cocFindOne s mid companyId CocType.Company).isSome :=
      (cocFindOne_isSome s mid companyId CocType.Company).2 h0
    obtain ⟨d, hd⟩ := Option.isSome_iff_exists.1 hsome
    simp only [conversationCompanyLoop, hd]
    exact ih s fun cid hc => h cid (List.mem_cons_of_mem companyId hc)

theorem createConversationMessageLog_valid (s : Store) (m : Message) (c : Customer)
    (cid : String) (hid : c._id = some cid) :
    createConversationMessageLog s m (some c) =
      match cocFindOne (conversationCompanyLoop m._id m.content c.companyIds s)
          m._id cid CocType.Customer with
      | some _ =>
        Except.ok (none, conversationCompanyLoop m._id m.content c.companyIds s)
      | none =>
        Except.ok
          (some (cocCreate (conversationCompanyLoop m._id m.content c.companyIds s)
              m._id m.content cid CocType.Customer).1,
            (cocCreate (conversationCompanyLoop m._id m.content c.companyIds s)
              m._id m.content cid CocType.Customer).2) := by
  simp [createConversationMessageLog, hid]

/-! Claim theorems. -/

/-- C5: `createInternalNoteLog(note, user)` unconditionally (no
duplicate check) appends exactly one record with
`activity = {InternalNote, Create, note.id, note.content}`,
`performedBy = {User, user.id}` and
`coc = {id: note.contentTypeId, type: note.contentType}`, for every note
and user and from every store state. -/
theorem internalNote_inserts_one (s : Store) (note : InternalNote) (user : User) :
    ∃ d : ActivityLogDoc,
      createInternalNoteLog s note user =
        (d, { nextId := s.nextId + 1, docs := s.docs ++ [d] }) ∧
      d.activity = { type := ActivityType.InternalNote, action := ActivityAction.Create
                     content := note.content, id := some note._id } ∧
      d.performedBy = { type := PerformerType.User, id := user._id } ∧
      d.coc = { id := some note.contentTypeId, type := note.contentType } :=
  ⟨_, rfl, rfl, rfl, rfl⟩

/-- C4: `createDoc` with an omitted (null) performer yields a record
performed by System, and `createCustomerRegistrationLog` with a null
user, or a user lacking an identifier, likewise yields
`performedBy = {type: System}`. -/
theorem create_defaults_to_system (s : Store) (a : Activity) (c : COC)
    (customer : Customer) (user : Option User)
    (h : user = none ∨ ∃ u, user = some u ∧ u._id = none) :
    (createDoc s none a c).1.performedBy =
      { type := PerformerType.System, id := none } ∧
    (createCustomerRegistrationLog s customer user).1.performedBy =
      { type := PerformerType.System, id := none } := by
  constructor
  · rfl
  · rcases h with h | ⟨u, hu, hid⟩
    · subst h; rfl
    · subst hu
      simp [createCustomerRegistrationLog, registrationPerformer, hid, createDoc,
        Store.insert]

/-- C4 witness: the default-performer theorem applied to concrete
inputs with a null user. -/
theorem create_defaults_to_system_witness :
    (createDoc emptyStore none sampleActivity sampleCOC).1.performedBy =
      { type := PerformerType.System, id := none } ∧
    (createCustomerRegistrationLog emptyStore sampleCustomer none).1.performedBy =
      { type := PerformerType.System, id := none } :=
  create_defaults_to_system emptyStore sampleActivity sampleCOC sampleCustomer none
    (Or.inl rfl)

/-- C3: `createConversationMessageLog` with a null customer, or a
customer lacking an identifier, fails with the invalid-argument error;
the result does not depend on the store, so no store access happens and
no insert is performed. -/
theorem conversation_missing_customer_errors (s : Store) (m : Message)
    (customer : Option Customer)
    (h : customer = none ∨ ∃ c, customer = some c ∧ c._id = none) :
    createConversationMessageLog s m customer =
      Except.error "customer must be supplied when adding activity log for conversations" := by
  rcases h with h | ⟨c, hc, hid⟩
  · subst h; rfl
  · subst hc
    simp [createConversationMessageLog, hid]

/-- C3 witness: the error theorem applied at a null customer. -/
theorem conversation_missing_customer_errors_witness :
    createConversationMessageLog emptyStore sampleMessage none =
      Except.error "customer must be supplied when adding activity log for conversations" :=
  conversation_missing_customer_errors emptyStore sampleMessage none (Or.inl rfl)

/-- C7: `createSegmentLog` with an absent target fails with the
invalid-argument error for every segment and every store; the result
does not depend on the store, so no store access happens and no insert
is performed. -/
theorem segment_missing_target_errors (s : Store) (seg : Segment) :
    createSegmentLog s seg none = Except.error "customer must be supplied" :=
  rfl

/-- C2: `createSegmentLog` first searches for a record matching
`(Segment, Create, segment.id, coc.type=segment.contentType,
coc.id=target.id)`; if one exists it is returned unchanged with no
insert, otherwise exactly one record is inserted with
`activity.content = segment.name` and a System performer; hence two
sequential calls starting from a store with no matching record return
the same record and perform exactly one insert in total. -/
theorem segment_log_idempotent (s : Store) (seg : Segment) (t : CocTarget) :
    (∀ d, s.docs.find? (segmentMatches seg._id seg.contentType t._id) = some d →
      createSegmentLog s seg (some t) = Except.ok (d, s)) ∧
    (s.docs.find? (segmentMatches seg._id seg.contentType t._id) = none →
      ∃ d s1,
        createSegmentLog s seg (some t) = Except.ok (d, s1) ∧
        d.activity = { type := ActivityType.Segment, action := ActivityAction.Create
                       content := seg.name, id := some seg._id } ∧
        d.performedBy = { type := PerformerType.System, id := none } ∧
        d.coc = { id := some t._id, type := seg.contentType } ∧
        s1.docs = s.docs ++ [d] ∧
        createSegmentLog s1 seg (some t) = Except.ok (d, s1)) := by
  constructor
  · intro d hd
    simp [createSegmentLog, hd]
  · intro hnone
    refine ⟨(createDoc s none
        { type := ActivityType.Segment, action := ActivityAction.Create
          content := seg.name, id := some seg._id }
        { id := some t._id, type := seg.contentType }).1,
      (createDoc s none
        { type := ActivityType.Segment, action := ActivityAction.Create
          content := seg.name, id := some seg._id }
        { id := some t._id, type := seg.contentType }).2,
      ?_, rfl, rfl, rfl, rfl, ?_⟩
    · simp [createSegmentLog, hnone]
    · simp [createSegmentLog, createDoc, Store.insert, List.find?_append, hnone,
        segmentMatches]

/-- C2 witness: the segment idempotence theorem applied at an empty
store and concrete segment and target. -/
theorem segment_log_idempotent_witness :
    ∃ d s1,
      createSegmentLog emptyStore sampleSegment (some sampleTarget) = Except.ok (d, s1) ∧
      d.activity = { type := ActivityType.Segment, action := ActivityAction.Create
                     content := sampleSegment.name, id := some sampleSegment._id } ∧
      d.performedBy = { type := PerformerType.System, id := none } ∧
      d.coc = { id := some sampleTarget._id, type := sampleSegment.contentType } ∧
      s1.docs = emptyStore.docs ++ [d] ∧
      createSegmentLog s1 sampleSegment (some sampleTarget) = Except.ok (d, s1) :=
  (segment_log_idempotent emptyStore sampleSegment sampleTarget).2 rfl

/-- C10: when the customer-level duplicate check of
`createConversationMessageLog` finds an existing record, the call
returns no record (only the store after the company loop); when no
duplicate exists, it returns the newly created customer-level record. -/
theorem conversation_return_value (s : Store) (m : Message) (c : Customer)
    (cid : String) (hid : c._id = some cid) :
    (∀ d, cocFindOne (conversationCompanyLoop m._id m.content c.companyIds s)
        m._id cid CocType.Customer = some d →
      createConversationMessageLog s m (some c) =
        Except.ok (none, conversationCompanyLoop m._id m.content c.companyIds s)) ∧
    (cocFindOne (conversationCompanyLoop m._id m.content c.companyIds s)
        m._id cid CocType.Customer = none →
      createConversationMessageLog s m (some c) =
        Except.ok
          (some (cocCreate (conversationCompanyLoop m._id m.content c.companyIds s)
              m._id m.content cid CocType.Customer).1,
            (cocCreate (conversationCompanyLoop m._id m.content c.companyIds s)
              m._id m.content cid CocType.Customer).2)) := by
  rw [createConversationMessageLog_valid s m c cid hid]
  constructor
  · intro d hd
    rw [hd]
  · intro hnone
    rw [hnone]

/-- A pre-existing customer-level conversation-message record used by
witnesses. -/
def dupConversationDoc : ActivityLogDoc :=
  { _id := 0
    activity := { type := ActivityType.ConversationMessage
                  action := ActivityAction.Create, content := "hi", id := some "m1" }
    performedBy := { type := PerformerType.Customer, id := none }
    coc := { id := some "c1", type := CocType.Customer } }

/-- A store already holding `dupConversationDoc`. -/
def dupStoreOne : Store := { nextId := 1, docs := [dupConversationDoc] }

/-- C10 witness: with a store already holding the customer-level
record, the call returns no record. -/
theorem conversation_return_value_witness :
    createConversationMessageLog dupStoreOne sampleMessage (some sampleCustomer) =
      Except.ok (none,
        conversationCompanyLoop sampleMessage._id sampleMessage.content
          sampleCustomer.companyIds dupStoreOne) :=
  (conversation_return_value dupStoreOne sampleMessage sampleCustomer "c1" rfl).1
    dupConversationDoc (by decide)

/-- C6: the conversation-message duplicate check matches only records
performed by a Customer. A record agreeing on every other key but
performed by System or User is not a duplicate: `cocMatches` rejects it,
`cocFindOne` over a store holding only such a record finds nothing, and
`createConversationMessageLog` still inserts a new Customer-performed
record. -/
theorem dedup_keys_on_customer_performer (n : Nat) (mid cid content cname : String)
    (t : CocType) (d : ActivityLogDoc)
    (hperf : d.performedBy.type ≠ PerformerType.Customer) :
    cocMatches mid cid t d = false ∧
    cocFindOne { nextId := n, docs := [d] } mid cid t = none ∧
    ∃ doc : ActivityLogDoc,
      createConversationMessageLog { nextId := n, docs := [d] }
          { _id := mid, content := content }
          (some { _id := some cid, name := cname, companyIds := [] }) =
        Except.ok (some doc, { nextId := n + 1, docs := [d, doc] }) ∧
      doc.performedBy = { type := PerformerType.Customer, id := none } ∧
      doc.coc = { id := some cid, type := CocType.Customer } := by
  have he : decide (d.performedBy.type = PerformerType.Customer) = false := by
    simp [hperf]
  have hAll : ∀ (mid' cid' : String) (t' : CocType), cocMatches mid' cid' t' d = false := by
    intro mid' cid' t'
    simp [cocMatches, he]
  have hfind : ∀ (mid' cid' : String) (t' : CocType),
      cocFindOne { nextId := n, docs := [d] } mid' cid' t' = none := by
    intro mid' cid' t'
    simp [cocFindOne, List.find?_cons, hAll]
  refine ⟨hAll mid cid t, hfind mid cid t, ?_⟩
  refine ⟨{ _id := n
            activity := { type := ActivityType.ConversationMessage
                          action := ActivityAction.Create, content := content
                          id := some mid }
            performedBy := { type := PerformerType.Customer, id := none }
            coc := { id := some cid, type := CocType.Customer } }, ?_, rfl, rfl⟩
  simp [createConversationMessageLog, conversationCompanyLoop,
    hfind mid cid CocType.Customer, cocCreate, createDoc, Store.insert]

/-- A conversation-message record performed by a User, matching
`sampleMessage` and `sampleCustomer` on every other dedup key. -/
def userPerformedDoc : ActivityLogDoc :=
  { _id := 0
    activity := { type := ActivityType.ConversationMessage
                  action := ActivityAction.Create, content := "hi", id := some "m1" }
    performedBy := { type := PerformerType.User, id := some "u1" }
    coc := { id := some "c1", type := CocType.Customer } }

/-- C6 witness: the Customer-performer dedup theorem applied to a
User-performed record agreeing on every other key. -/
theorem dedup_keys_on_customer_performer_witness :
    cocMatches "m1" "c1" CocType.Customer userPerformedDoc = false ∧
    cocFindOne { nextId := 1, docs := [userPerformedDoc] } "m1" "c1"
      CocType.Customer = none ∧
    ∃ doc : ActivityLogDoc,
      createConversationMessageLog { nextId := 1, docs := [userPerformedDoc] }
          { _id := "m1", content := "hi" }
          (some { _id := some "c1", name := "Acme", companyIds := [] }) =
        Except.ok (some doc, { nextId := 2, docs := [userPerformedDoc, doc] }) ∧
      doc.performedBy = { type := PerformerType.Customer, id := none } ∧
      doc.coc = { id := some "c1", type := CocType.Customer } :=
  dedup_keys_on_customer_performer 1 "m1" "c1" "hi" "Acme" CocType.Customer
    userPerformedDoc (by decide)

/-- C9: inside one call to `createConversationMessageLog`, a company id
occurring any number of times in `customer.companyIds` ends up with
exactly one matching record when none existed before the call: every
later occurrence's duplicate check sees the insert made for the first
occurrence. -/
theorem duplicate_company_ids_single_insert (s : Store) (m : Message) (c : Customer)
    (cid i : String) (hid : c._id = some i) (hmem : cid ∈ c.companyIds)
    (hzero : countMatching s (cocMatches m._id cid CocType.Company) = 0) :
    ∃ r s1,
      createConversationMessageLog s m (some c) = Except.ok (r, s1) ∧
      countMatching s1 (cocMatches m._id cid CocType.Company) = 1 := by
  rw [createConversationMessageLog_valid s m c i hid]
  have hL :
      countMatching (conversationCompanyLoop m._id m.content c.companyIds s)
        (cocMatches m._id cid CocType.Company) = 1 :=
    loop_count_company_zero_mem m._id m.content cid c.companyIds s hmem hzero
  cases hf : cocFindOne (conversationCompanyLoop m._id m.content c.companyIds s)
      m._id i CocType.Customer with
  | some d =>
    exact ⟨none, conversationCompanyLoop m._id m.content c.companyIds s, rfl, hL⟩
  | none =>
    refine ⟨some (cocCreate (conversationCompanyLoop m._id m.content c.companyIds s)
        m._id m.content i CocType.Customer).1,
      (cocCreate (conversationCompanyLoop m._id m.content c.companyIds s)
        m._id m.content i CocType.Customer).2, rfl, ?_⟩
    rw [countMatching_cocCreate,
      cocMatches_created_ne_type _ _ _ _ _ _ CocType.Customer CocType.Company (by simp),
      hL]
    rfl

/-- A customer whose company list holds the same company id twice. -/
def dupCompanyCustomer : Customer :=
  { _id := some "c1", name := "Acme", companyIds := ["k1", "k1"] }

/-- C9 witness: the duplicate-company-id theorem applied at an empty
store and a customer listing the same company twice. -/
theorem duplicate_company_ids_single_insert_witness :
    ∃ r s1,
      createConversationMessageLog emptyStore sampleMessage (some dupCompanyCustomer) =
        Except.ok (r, s1) ∧
      countMatching s1 (cocMatches sampleMessage._id "k1" CocType.Company) = 1 :=
  duplicate_company_ids_single_insert emptyStore sampleMessage dupCompanyCustomer
    "k1" "c1" rfl (by decide) (by decide)

/-- The customer used by the C8 scenario: two associated companies. -/
def twoCompanyCustomer : Customer :=
  { _id := some "cu8", name := "Acme", companyIds := ["k1", "k2"] }

/-- The message used by the C8 scenario. -/
def c8Message : Message := { _id := "m8", content := "hello" }

/-- The first company-level record the C8 scenario creates. -/
def c8CompanyDoc1 : ActivityLogDoc :=
  { _id := 0
    activity := { type := ActivityType.ConversationMessage
                  action := ActivityAction.Create, content := "hello", id := some "m8" }
    performedBy := { type := PerformerType.Customer, id := none }
    coc := { id := some "k1", type := CocType.Company } }

/-- The second company-level record the C8 scenario creates. -/
def c8CompanyDoc2 : ActivityLogDoc :=
  { _id := 1
    activity := { type := ActivityType.ConversationMessage
                  action := ActivityAction.Create, content := "hello", id := some "m8" }
    performedBy := { type := PerformerType.Customer, id := none }
    coc := { id := some "k2", type := CocType.Company } }

/-- The customer-level record the C8 scenario creates. -/
def c8CustomerDoc : ActivityLogDoc :=
  { _id := 2
    activity := { type := ActivityType.ConversationMessage
                  action := ActivityAction.Create, content := "hello", id := some "m8" }
    performedBy := { type := PerformerType.Customer, id := none }
    coc := { id := some "cu8", type := CocType.Customer } }

/-- The store after the first C8 call. -/
def c8StoreAfter : Store :=
  { nextId := 3, docs := [c8CompanyDoc1, c8CompanyDoc2, c8CustomerDoc] }

/-- C8: on a fresh store, `createConversationMessageLog` for a customer
with `companyIds = [k1, k2]` creates exactly three records in list
order — one per company (coc type Company, performer Customer with no
performer id) and then one for the customer — and an immediate second
identical call creates zero records and returns no record. -/
theorem conversation_three_then_zero :
    createConversationMessageLog emptyStore c8Message (some twoCompanyCustomer) =
      Except.ok (some c8CustomerDoc, c8StoreAfter) ∧
    c8StoreAfter.docs = [c8CompanyDoc1, c8CompanyDoc2, c8CustomerDoc] ∧
    createConversationMessageLog c8StoreAfter c8Message (some twoCompanyCustomer) =
      Except.ok (none, c8StoreAfter) := by
  refine ⟨?_, rfl, ?_⟩ <;> rfl

/-- A store already holding two identical customer-level
conversation-message records for `sampleMessage`/`sampleCustomer`. -/
def dupStoreTwo : Store :=
  { nextId := 2, docs := [dupConversationDoc, { dupConversationDoc with _id := 1 }] }

/-- C1 counterexample: starting from a store that already holds two
records for the customer target, both sequential calls insert nothing
and leave the store unchanged, so two records — not exactly one — remain
for that coc target after the two calls. -/
theorem conversation_idempotence_counterexample :
    createConversationMessageLog dupStoreTwo sampleMessage (some sampleCustomer) =
      Except.ok (none, dupStoreTwo) ∧
    countMatching dupStoreTwo (cocMatches "m1" "c1" CocType.Customer) = 2 := by
  constructor <;> rfl

/-- C1 (amended): for every message, every customer with an identifier
and every starting store, the first call ensures every check-then-insert
pair of the second call finds a matching record, so the second call
performs zero inserts and returns no record; and for each distinct coc
target that had no matching record before the first call, exactly one
matching record exists afterwards. -/
theorem conversation_second_call_no_insert (s : Store) (m : Message) (c : Customer)
    (cid : String) (hid : c._id = some cid) :
    ∃ r1 s1,
      createConversationMessageLog s m (some c) = Except.ok (r1, s1) ∧
      createConversationMessageLog s1 m (some c) = Except.ok (none, s1) ∧
      (∀ companyId ∈ c.companyIds,
        countMatching s (cocMatches m._id companyId CocType.Company) = 0 →
        countMatching s1 (cocMatches m._id companyId CocType.Company) = 1) ∧
      (countMatching s (cocMatches m._id cid CocType.Customer) = 0 →
        countMatching s1 (cocMatches m._id cid CocType.Customer) = 1) := by
  rw [createConversationMessageLog_valid s m c cid hid]
  cases hf : cocFindOne (conversationCompanyLoop m._id m.content c.companyIds s)
      m._id cid CocType.Customer with
  | some d =>
    refine ⟨none, conversationCompanyLoop m._id m.content c.companyIds s, rfl, ?_, ?_, ?_⟩
    · rw [createConversationMessageLog_valid _ m c cid hid,
        loop_eq_self_of_pos m._id m.content c.companyIds _
          (fun cid' h' =>
            loop_count_company_pos_of_mem m._id m.content cid' c.companyIds s h'),
        hf]
    · intro companyId hmem h0
      exact loop_count_company_zero_mem m._id m.content companyId c.companyIds s hmem h0
    · intro h0
      exfalso
      have hz :
          countMatching (conversationCompanyLoop m._id m.content c.companyIds s)
            (cocMatches m._id cid CocType.Customer) = 0 := by
        rw [loop_count_customer]
        exact h0
      have hn := (cocFindOne_eq_none _ m._id cid CocType.Customer).2 hz
      rw [hf] at hn
      exact Option.noConfusion hn
  | none =>
    have hcustkey :
        cocMatches m._id cid CocType.Customer
          (cocCreate (conversationCompanyLoop m._id m.content c.companyIds s)
            m._id m.content cid CocType.Customer).1 = true :=
      cocMatches_created_self _ m._id m.content cid CocType.Customer
    have hcount2 : ∀ companyId : String,
        countMatching (cocCreate (conversationCompanyLoop m._id m.content c.companyIds s)
            m._id m.content cid CocType.Customer).2
            (cocMatches m._id companyId CocType.Company) =
          countMatching (conversationCompanyLoop m._id m.content c.companyIds s)
            (cocMatches m._id companyId CocType.Company) := by
      intro companyId
      rw [countMatching_cocCreate,
        cocMatches_created_ne_type _ _ _ _ _ _ CocType.Customer CocType.Company (by simp)]
      rfl
    have hcustcount :
        countMatching (cocCreate (conversationCompanyLoop m._id m.content c.companyIds s)
            m._id m.content cid CocType.Customer).2
            (cocMatches m._id cid CocType.Customer) =
          countMatching (conversationCompanyLoop m._id m.content c.companyIds s)
            (cocMatches m._id cid CocType.Customer) + 1 := by
      rw [countMatching_cocCreate, hcustkey]
      rfl
    refine ⟨some (cocCreate (conversationCompanyLoop m._id m.content c.companyIds s)
        m._id m.content cid CocType.Customer).1,
      (cocCreate (conversationCompanyLoop m._id m.content c.companyIds s)
        m._id m.content cid CocType.Customer).2, rfl, ?_, ?_, ?_⟩
    · rw [createConversationMessageLog_valid _ m c cid hid,
        loop_eq_self_of_pos m._id m.content c.companyIds _
          (fun cid' h' => by
            rw [hcount2 cid']
            exact loop_count_company_pos_of_mem m._id m.content cid' c.companyIds s h')]
      have hpos :
          0 < countMatching (cocCreate (conversationCompanyLoop m._id m.content
              c.companyIds s) m._id m.content cid CocType.Customer).2
            (cocMatches m._id cid CocType.Customer) := by
        rw [hcustcount]
        exact Nat.succ_pos _
      obtain ⟨d', hd'⟩ := Option.isSome_iff_exists.1
        ((cocFindOne_isSome _ m._id cid CocType.Customer).2 hpos)
      rw [hd']
    · intro companyId hmem h0
      rw [hcount2 companyId]
      exact loop_count_company_zero_mem m._id m.content companyId c.companyIds s hmem h0
    · intro h0
      rw [hcustcount, loop_count_customer, h0]

/-- A customer with one associated company, used by the C1 witness. -/
def oneCompanyCustomer : Customer :=
  { _id := some "c1", name := "Acme", companyIds := ["k1"] }

/-- C1 witness: the amended idempotence theorem applied at an empty
store and a customer with one company. -/
theorem conversation_second_call_no_insert_witness :
    ∃ r1 s1,
      createConversationMessageLog emptyStore sampleMessage (some oneCompanyCustomer) =
        Except.ok (r1, s1) ∧
      createConversationMessageLog s1 sampleMessage (some oneCompanyCustomer) =
        Except.ok (none, s1) ∧
      (∀ companyId ∈ oneCompanyCustomer.companyIds,
        countMatching emptyStore (cocMatches sampleMessage._id companyId CocType.Company) = 0 →
        countMatching s1 (cocMatches sampleMessage._id companyId CocType.Company) = 1) ∧
      (countMatching emptyStore (cocMatches sampleMessage._id "c1" CocType.Customer) = 0 →
        countMatching s1 (cocMatches sampleMessage._id "c1" CocType.Customer) = 1) :=
  conversation_second_call_no_insert emptyStore sampleMessage oneCompanyCustomer "c1" rfl

end ActivityLogs
